import Mathlib

/-!
Shallow embedding of the patient/notes request handler (`lambda.py`) and
proofs about it.

The handler is an AWS-Lambda-style entry point backed by a single DynamoDB
table keyed by the pair (id, type).  The embedding models:

* JSON values (`Value`), items (attribute maps), and the store (a map from
  composite keys to items);
* the store operations the source uses (`get_item`, `put_item`,
  `update_item` with the three update expressions that occur in the
  source, `delete_item`);
* every handler function of the source, with Python exceptions
  (`KeyError`, `TypeError`, `AttributeError`, botocore `ClientError`)
  modelled by an `Except Exn` result, and the mutated table threaded
  explicitly;
* the top-level router `lambda_handler` with its try/except boundary.

Timestamps: the source calls `datetime.now().isoformat()`; an invocation
is modelled with one timestamp argument `now` standing for the value those
calls return during that invocation.  The note-id generator
`uuid.uuid4()` is modelled by a `fresh` argument.
-/

set_option autoImplicit false

namespace Lemr

/-- A JSON value, as produced by `json.loads` and stored in the table. -/
inductive Value where
  | null
  | bool (b : Bool)
  | num (n : Int)
  | str (s : String)
  | arr (elems : List Value)
  | obj (fields : List (String × Value))
deriving Repr, Inhabited

/-- An item of the table: an attribute map (Python dict, insertion-ordered). -/
abbrev Item := List (String × Value)

/-- The composite primary key of the table: (id, type). -/
abbrev Key := String × String

/-- The table contents: bindings from composite keys to items. -/
abbrev Store := List (Key × Item)

/-- A Python exception crossing a handler boundary: either a botocore
`ClientError` (caught specially) or any other exception, carrying the
message used by the top-level `except` clauses. -/
inductive Exn where
  | client (msg : String)
  | other (msg : String)
deriving Repr

/-- First-match association-list lookup (Python dict read / table read). -/
def lookupA {α β : Type} [DecidableEq α] (k : α) : List (α × β) → Option β
  | [] => none
  | (k', v) :: rest => if k' = k then some v else lookupA k rest

/-- Set a key: replace the first binding in place, else append — the
insertion-order semantics of a Python dict assignment, also used for the
store itself. -/
def setA {α β : Type} [DecidableEq α] (k : α) (v : β) : List (α × β) → List (α × β)
  | [] => [(k, v)]
  | (k', v') :: rest => if k' = k then (k, v) :: rest else (k', v') :: setA k v rest

/-- Remove every binding of a key (store delete). -/
def delA {α β : Type} [DecidableEq α] (k : α) (l : List (α × β)) : List (α × β) :=
  l.filter (fun p => p.1 ≠ k)

/-- One hexadecimal digit, as accepted by percent-decoding. -/
def hexDigit (c : Char) : Option Nat :=
  if '0' ≤ c ∧ c ≤ '9' then some (c.toNat - '0'.toNat)
  else if 'a' ≤ c ∧ c ≤ 'f' then some (c.toNat - 'a'.toNat + 10)
  else if 'A' ≤ c ∧ c ≤ 'F' then some (c.toNat - 'A'.toNat + 10)
  else none

/-- Percent-decoding of the character list of a path parameter.  An invalid
escape is kept literally, as `urllib.parse.unquote` does; multi-byte UTF-8
escape sequences are decoded bytewise (each `%XX` becomes the character of
that code point), which agrees with the source on all ASCII input. -/
def unquoteChars : List Char → List Char
  | [] => []
  | '%' :: a :: b :: rest =>
    match hexDigit a, hexDigit b with
    | some ha, some hb => Char.ofNat (16 * ha + hb) :: unquoteChars rest
    | _, _ => '%' :: unquoteChars (a :: b :: rest)
  | c :: rest => c :: unquoteChars rest

/-- `urllib.parse.unquote` on a path parameter. -/
def unquote (s : String) : String :=
  String.mk (unquoteChars s.data)

/-- The inbound event envelope.  `body` carries the JSON value that
`json.loads(event["body"])` would produce; an absent or unparseable body is
`none` (either way the source raises before doing anything else). -/
structure Event where
  resource : Option String
  httpMethod : Option String
  pathParameters : Option (List (String × String))
  body : Option Value

/-- The response envelope; the body is the value passed to `json.dumps`. -/
structure Response where
  statusCode : Nat
  headers : List (String × String)
  body : Value
deriving Repr

/-- The fixed CORS header block of `response_with_cors`. -/
def corsHeaders : List (String × String) :=
  [("Access-Control-Allow-Origin", "*"),
   ("Access-Control-Allow-Methods", "GET,POST,PUT,DELETE,OPTIONS"),
   ("Access-Control-Allow-Headers", "Content-Type,Authorization")]

/-- `response_with_cors(status_code, body)`. -/
def response_with_cors (statusCode : Nat) (body : Value) : Response :=
  { statusCode := statusCode, headers := corsHeaders, body := body }

/-- `event["body"]` followed by `json.loads`: raises when the body is
absent or not parseable. -/
def getBody (ev : Event) : Except Exn Value :=
  match ev.body with
  | some v => Except.ok v
  | none => Except.error (Exn.other "KeyError: body")

/-- `event["pathParameters"][k]`: raises `KeyError` when the parameter map
or the entry is absent.  Percent-decoding is applied by the callers, as in
the source. -/
def getPathParam (ev : Event) (k : String) : Except Exn String :=
  match ev.pathParameters with
  | none => Except.error (Exn.other "KeyError: pathParameters")
  | some ps =>
    match lookupA k ps with
    | some v => Except.ok v
    | none => Except.error (Exn.other ("KeyError: " ++ k))

/-- `body[k]` on a JSON value: a `KeyError` when the key is absent, a
`TypeError` when the value is not a dict. -/
def subscript (v : Value) (k : String) : Except Exn Value :=
  match v with
  | Value.obj fs =>
    match lookupA k fs with
    | some x => Except.ok x
    | none => Except.error (Exn.other ("KeyError: " ++ k))
  | _ => Except.error (Exn.other ("TypeError: value is not subscriptable at " ++ k))

/-- `body.get(k, default)`: an `AttributeError` when the value is not a
dict. -/
def pyGetD (v : Value) (k : String) (d : Value) : Except Exn Value :=
  match v with
  | Value.obj fs => Except.ok ((lookupA k fs).getD d)
  | _ => Except.error (Exn.other "AttributeError: the value has no method get")

/-- Python `k in body` for a string `k`.  On a dict it is key membership,
on a list it is element membership, on a string it is substring search
(the call sites only pass nonempty literals); on the other JSON values the
source would raise `TypeError`. -/
def pyContains (v : Value) (k : String) : Except Exn Bool :=
  match v with
  | Value.obj fs => Except.ok (lookupA k fs).isSome
  | Value.arr xs => Except.ok (xs.any (fun x => match x with | Value.str s => decide (s = k) | _ => false))
  | Value.str s => Except.ok (decide ((s.splitOn k).length ≠ 1))
  | _ => Except.error (Exn.other "TypeError: argument is not iterable")

/-- `body.items()`: an `AttributeError` when the value is not a dict. -/
def pyItems (v : Value) : Except Exn (List (String × Value)) :=
  match v with
  | Value.obj fs => Except.ok fs
  | _ => Except.error (Exn.other "AttributeError: the value has no method items")

/-- `note[k] = x` on a JSON value: a `TypeError` when it is not a dict. -/
def pySetItem (v : Value) (k : String) (x : Value) : Except Exn Value :=
  match v with
  | Value.obj fs => Except.ok (Value.obj (setA k x fs))
  | _ => Except.error (Exn.other "TypeError: the value does not support item assignment")

/-- Python `v == s` for a string literal `s` on the right: true exactly for
the equal string, false (not an error) on every other value. -/
def isStr (v : Value) (s : String) : Bool :=
  match v with
  | Value.str t => decide (t = s)
  | _ => false

/-- `table.get_item(Key=...)`: the item bound to the key, if any. -/
def get_item (st : Store) (k : Key) : Option Item :=
  lookupA k st

/-- `table.put_item(Item=...)`: full overwrite of the row addressed by the
item's own `id`/`type` attributes.  The table schema requires both key
attributes to be strings; anything else is rejected by the store with a
`ClientError`. -/
def put_item (st : Store) (item : Item) : Except Exn Store :=
  match lookupA "id" item, lookupA "type" item with
  | some (Value.str i), some (Value.str t) => Except.ok (setA (i, t) item st)
  | _, _ => Except.error (Exn.client "One or more parameter values were invalid")

/-- `table.update_item` with a `SET a1 = :v1, ...` expression (used by
`update_patient`, and by `update_note`/`delete_note` to write back the
whole notes list).  DynamoDB rejects an expression that touches a key
attribute or names the same attribute twice; otherwise it upserts: a
missing row is created from its key attributes, and the named attributes
are set in order.  Returns the post-update item (`ALL_NEW`).
Expression-syntax and reserved-word validation of the real store is not
modelled. -/
def update_item_set (st : Store) (k : Key) (attrs : List (String × Value)) :
    Except Exn (Item × Store) :=
  if attrs.any (fun a => a.1 = "id" ∨ a.1 = "type") then
    Except.error (Exn.client "Cannot update attribute id or type: it is part of the key")
  else if attrs.any (fun a => 1 < (attrs.filter (fun b => b.1 = a.1)).length) then
    Except.error (Exn.client "Invalid UpdateExpression: two document paths overlap")
  else
    let base := (lookupA k st).getD [("id", Value.str k.1), ("type", Value.str k.2)]
    let item := attrs.foldl (fun acc a => setA a.1 a.2 acc) base
    Except.ok (item, setA k item st)

/-- `table.update_item` with the expression
`SET notes = list_append(if_not_exists(notes, :empty_list), :note)` used
by `add_note_to_patient`: upsert of the row, appending the one-element
list `[note]` to the `notes` attribute, which is initialized to the empty
list when absent.  Appending to a non-list attribute is a store-side
`ClientError`. -/
def update_item_append_notes (st : Store) (k : Key) (note : Value) :
    Except Exn (Item × Store) :=
  let base := (lookupA k st).getD [("id", Value.str k.1), ("type", Value.str k.2)]
  match lookupA "notes" base with
  | some (Value.arr xs) =>
    let item := setA "notes" (Value.arr (xs ++ [note])) base
    Except.ok (item, setA k item st)
  | some _ => Except.error (Exn.client "An operand in the update expression has an incorrect data type")
  | none =>
    let item := setA "notes" (Value.arr [note]) base
    Except.ok (item, setA k item st)

/-- `table.delete_item(Key=...)`: unconditional removal, a no-op when the
row is absent. -/
def delete_item (st : Store) (k : Key) : Store :=
  delA k st

/-- `create_patient(event)`: builds the patient item from the required
body fields (a missing field raises `KeyError`, caught only at the top
level), stamps `type`, `createdAt`, `updatedAt` and an empty `notes`
list, writes the row with overwrite semantics and returns 201 with it. -/
def create_patient (now : String) (ev : Event) (st : Store) :
    Except Exn (Response × Store) := do
  let body ← getBody ev
  let idv ← subscript body "id"
  let namev ← subscript body "name"
  let emailv ← subscript body "email"
  let dobv ← subscript body "dateOfBirth"
  let btv ← subscript body "bloodType"
  let alv ← subscript body "allergies"
  let mhv ← subscript body "medicalHistory"
  let ecv ← subscript body "emergencyContacts"
  let cmv ← subscript body "currentMedications"
  let patient : Item :=
    [("id", idv), ("type", Value.str "Patient"), ("name", namev),
     ("email", emailv), ("dateOfBirth", dobv), ("bloodType", btv),
     ("allergies", alv), ("medicalHistory", mhv),
     ("emergencyContacts", ecv), ("currentMedications", cmv),
     ("createdAt", Value.str now), ("updatedAt", Value.str now),
     ("notes", Value.arr [])]
  let st' ← put_item st patient
  Except.ok (response_with_cors 201 (Value.obj patient), st')

/-- `get_patient(event)`: point read by (id, "Patient"); 200 with the row
or 404 "Patient not found". -/
def get_patient (ev : Event) (st : Store) : Except Exn (Response × Store) := do
  let patient_id := unquote (← getPathParam ev "id")
  match get_item st (patient_id, "Patient") with
  | some item => Except.ok (response_with_cors 200 (Value.obj item), st)
  | none => Except.ok (response_with_cors 404 (Value.str "Patient not found"), st)

/-- `update_patient(event)`: every top-level body key becomes a SET clause
of one update expression, followed by `updatedAt = now`; returns 200 with
the post-update row. -/
def update_patient (now : String) (ev : Event) (st : Store) :
    Except Exn (Response × Store) := do
  let patient_id := unquote (← getPathParam ev "id")
  let body ← getBody ev
  let fields ← pyItems body
  let attrs := fields ++ [("updatedAt", Value.str now)]
  let (item, st') ← update_item_set st (patient_id, "Patient") attrs
  Except.ok (response_with_cors 200 (Value.obj item), st')

/-- `delete_patient(event)`: unconditional row delete, 204 with a null
body. -/
def delete_patient (ev : Event) (st : Store) : Except Exn (Response × Store) := do
  let patient_id := unquote (← getPathParam ev "id")
  Except.ok (response_with_cors 204 Value.null,
    delete_item st (patient_id, "Patient"))

/-- `add_note_to_patient(event)`: takes the note id from the body or a
generated `Note#<uuid>`, then requires `author` and `content` (missing
either gives 400 before any write); a bare-string content is wrapped into
a one-element list; the note is appended to the patient row's `notes`
with default-empty initialization.  A store `ClientError` during the
append is caught locally and returned as 500. -/
def add_note_to_patient (now fresh : String) (ev : Event) (st : Store) :
    Except Exn (Response × Store) := do
  let patient_id := unquote (← getPathParam ev "id")
  let body ← getBody ev
  let note_id ← pyGetD body "id" (Value.str ("Note#" ++ fresh))
  let hasAuthor ← pyContains body "author"
  let hasContent ← pyContains body "content"
  if !hasAuthor || !hasContent then
    Except.ok
      (response_with_cors 400
        (Value.str "Missing required fields: author and content are required."), st)
  else do
    let contentv ← subscript body "content"
    let content_list :=
      match contentv with
      | Value.str s => Value.arr [Value.str s]
      | v => v
    let authorv ← subscript body "author"
    let note : Value := Value.obj
      [("id", note_id), ("patientId", Value.str patient_id),
       ("author", authorv), ("createdAt", Value.str now),
       ("updatedAt", Value.str now), ("type", Value.str "Note"),
       ("content", content_list)]
    match update_item_append_notes st (patient_id, "Patient") note with
    | Except.ok (item, st') =>
      Except.ok (response_with_cors 201 (Value.obj item), st')
    | Except.error (Exn.client m) =>
      Except.ok (response_with_cors 500 (Value.str ("Error adding note: " ++ m)), st)
    | Except.error e => Except.error e

/-- `get_all_notes_for_patient(event)`: 200 with the row's `notes` value
when the row exists and carries the attribute, else 404 "No notes found
for this patient". -/
def get_all_notes_for_patient (ev : Event) (st : Store) :
    Except Exn (Response × Store) := do
  let patient_id := unquote (← getPathParam ev "id")
  match get_item st (patient_id, "Patient") with
  | some item =>
    match lookupA "notes" item with
    | some notesV => Except.ok (response_with_cors 200 notesV, st)
    | none =>
      Except.ok (response_with_cors 404 (Value.str "No notes found for this patient"), st)
  | none =>
    Except.ok (response_with_cors 404 (Value.str "No notes found for this patient"), st)

/-- The notes attribute as the list Python iterates over; the source
raises when iterating a non-list while reading each `note["id"]`. -/
def asNotesList (v : Value) : Except Exn (List Value) :=
  match v with
  | Value.arr xs => Except.ok xs
  | _ => Except.error (Exn.other "TypeError: the notes attribute is not a list")

/-- `next((note for note in notes if note["id"] == note_id), None)`:
left-to-right scan, stopping at the first match; a note without an `id`
key raises `KeyError` when reached. -/
def findNote (nid : String) : List Value → Except Exn (Option Value)
  | [] => Except.ok none
  | x :: xs => do
    let v ← subscript x "id"
    if isStr v nid then Except.ok (some x) else findNote nid xs

/-- `get_note(event)`: 404 "Note not found" when the row, its `notes`
attribute or the scanned-for note is absent; else 200 with the note. -/
def get_note (ev : Event) (st : Store) : Except Exn (Response × Store) := do
  let patient_id := unquote (← getPathParam ev "id")
  let note_id := unquote (← getPathParam ev "noteId")
  match get_item st (patient_id, "Patient") with
  | none => Except.ok (response_with_cors 404 (Value.str "Note not found"), st)
  | some item =>
    match lookupA "notes" item with
    | none => Except.ok (response_with_cors 404 (Value.str "Note not found"), st)
    | some notesV => do
      let xs ← asNotesList notesV
      match ← findNote note_id xs with
      | none => Except.ok (response_with_cors 404 (Value.str "Note not found"), st)
      | some note => Except.ok (response_with_cors 200 note, st)

/-- `next((i for i, note in enumerate(notes) if note["id"] == note_id),
None)`, also returning the located note itself. -/
def findNoteIdx (nid : String) : List Value → Nat → Except Exn (Option (Nat × Value))
  | [], _ => Except.ok none
  | x :: xs, i => do
    let v ← subscript x "id"
    if isStr v nid then Except.ok (some (i, x)) else findNoteIdx nid xs (i + 1)

/-- `update_note(event)`: locates the note by linear scan (404 "Note not
found" when the row, the `notes` attribute or the note is absent), merges
every top-level body key into the located note, forces `updatedAt = now`
on it, writes the whole notes list back in one SET and returns 200 with
the post-update row. -/
def update_note (now : String) (ev : Event) (st : Store) :
    Except Exn (Response × Store) := do
  let patient_id := unquote (← getPathParam ev "id")
  let note_id := unquote (← getPathParam ev "noteId")
  let body ← getBody ev
  match get_item st (patient_id, "Patient") with
  | none => Except.ok (response_with_cors 404 (Value.str "Note not found"), st)
  | some item =>
    match lookupA "notes" item with
    | none => Except.ok (response_with_cors 404 (Value.str "Note not found"), st)
    | some notesV => do
      let xs ← asNotesList notesV
      match ← findNoteIdx note_id xs 0 with
      | none => Except.ok (response_with_cors 404 (Value.str "Note not found"), st)
      | some (i, note) => do
        let fields ← pyItems body
        let note1 ← fields.foldlM (fun acc kv => pySetItem acc kv.1 kv.2) note
        let note2 ← pySetItem note1 "updatedAt" (Value.str now)
        let newNotes := xs.set i note2
        let (item', st') ←
          update_item_set st (patient_id, "Patient") [("notes", Value.arr newNotes)]
        Except.ok (response_with_cors 200 (Value.obj item'), st')

/-- `[note for note in notes if note["id"] != note_id]`: the filtered
list, scanning left to right; a note without an `id` key raises. -/
def filterNotes (nid : String) : List Value → Except Exn (List Value)
  | [] => Except.ok []
  | x :: xs => do
    let v ← subscript x "id"
    let rest ← filterNotes nid xs
    if isStr v nid then Except.ok rest else Except.ok (x :: rest)

/-- `delete_note(event)`: 404 "Note not found" when the row or its `notes`
attribute is absent; else writes back the list with every matching note
filtered out and returns 204 with a null body whether or not anything
matched. -/
def delete_note (ev : Event) (st : Store) : Except Exn (Response × Store) := do
  let patient_id := unquote (← getPathParam ev "id")
  let note_id := unquote (← getPathParam ev "noteId")
  match get_item st (patient_id, "Patient") with
  | none => Except.ok (response_with_cors 404 (Value.str "Note not found"), st)
  | some item =>
    match lookupA "notes" item with
    | none => Except.ok (response_with_cors 404 (Value.str "Note not found"), st)
    | some notesV => do
      let xs ← asNotesList notesV
      let new_notes ← filterNotes note_id xs
      let (_, st') ←
        update_item_set st (patient_id, "Patient") [("notes", Value.arr new_notes)]
      Except.ok (response_with_cors 204 Value.null, st')

/-- The top-level try/except of `lambda_handler`: a `ClientError` becomes
500 "Error: ...", any other exception 500 "Unexpected error: ...", and
the store is as it was when the exception was raised (no handler writes
after its last store call, so that is the entry store). -/
def catchTop (st : Store) : Except Exn (Response × Store) → Response × Store
  | Except.ok rs => rs
  | Except.error (Exn.client m) =>
    (response_with_cors 500 (Value.str ("Error: " ++ m)), st)
  | Except.error (Exn.other m) =>
    (response_with_cors 500 (Value.str ("Unexpected error: " ++ m)), st)

/-- `lambda_handler(event, context)`: reads `resource` and `httpMethod`
with the default "UNKNOWN", returns 400 when either equals the sentinel,
dispatches through the fixed route chain, answers 405 on no match, and
converts exceptions at the boundary. -/
def lambda_handler (now fresh : String) (ev : Event) (st : Store) : Response × Store :=
  catchTop st
    (let resource := ev.resource.getD "UNKNOWN"
     let method := ev.httpMethod.getD "UNKNOWN"
     if resource = "UNKNOWN" ∨ method = "UNKNOWN" then
       Except.ok
         (response_with_cors 400 (Value.str "Invalid request. Resource or method not found."), st)
     else if resource = "/patients" ∧ method = "POST" then
       create_patient now ev st
     else if resource = "/patients/{id}" ∧ method = "GET" then
       get_patient ev st
     else if resource = "/patients/{id}" ∧ method = "PUT" then
       update_patient now ev st
     else if resource = "/patients/{id}" ∧ method = "DELETE" then
       delete_patient ev st
     else if resource = "/patients/{id}/notes" ∧ method = "POST" then
       add_note_to_patient now fresh ev st
     else if resource = "/patients/{id}/notes" ∧ method = "GET" then
       get_all_notes_for_patient ev st
     else if resource = "/patients/{id}/notes/{noteId}" ∧ method = "GET" then
       get_note ev st
     else if resource = "/patients/{id}/notes/{noteId}" ∧ method = "PUT" then
       update_note now ev st
     else if resource = "/patients/{id}/notes/{noteId}" ∧ method = "DELETE" then
       delete_note ev st
     else
       Except.ok (response_with_cors 405 (Value.str "Method Not Allowed"), st))

/-- The nine (path template, method) pairs of the routing chain. -/
def routePairs : List (String × String) :=
  [("/patients", "POST"),
   ("/patients/{id}", "GET"),
   ("/patients/{id}", "PUT"),
   ("/patients/{id}", "DELETE"),
   ("/patients/{id}/notes", "POST"),
   ("/patients/{id}/notes", "GET"),
   ("/patients/{id}/notes/{noteId}", "GET"),
   ("/patients/{id}/notes/{noteId}", "PUT"),
   ("/patients/{id}/notes/{noteId}", "DELETE")]

/-- The routing table: each pair with the handler the chain dispatches
to, every handler brought to the uniform signature. -/
def routeTable :
    List ((String × String) × (String → String → Event → Store → Except Exn (Response × Store))) :=
  [(("/patients", "POST"), fun now _ ev st => create_patient now ev st),
   (("/patients/{id}", "GET"), fun _ _ ev st => get_patient ev st),
   (("/patients/{id}", "PUT"), fun now _ ev st => update_patient now ev st),
   (("/patients/{id}", "DELETE"), fun _ _ ev st => delete_patient ev st),
   (("/patients/{id}/notes", "POST"), fun now fresh ev st => add_note_to_patient now fresh ev st),
   (("/patients/{id}/notes", "GET"), fun _ _ ev st => get_all_notes_for_patient ev st),
   (("/patients/{id}/notes/{noteId}", "GET"), fun _ _ ev st => get_note ev st),
   (("/patients/{id}/notes/{noteId}", "PUT"), fun now _ ev st => update_note now ev st),
   (("/patients/{id}/notes/{noteId}", "DELETE"), fun _ _ ev st => delete_note ev st)]

/-! ### Lemmas about the embedding -/

@[simp] theorem bind_ok {α β : Type} (a : α) (f : α → Except Exn β) :
    (Except.ok a >>= f : Except Exn β) = f a := rfl

@[simp] theorem pure_eq_ok {α : Type} (a : α) :
    (pure a : Except Exn α) = Except.ok a := rfl

@[simp] theorem bind_error {α β : Type} (e : Exn) (f : α → Except Exn β) :
    (Except.error e >>= f : Except Exn β) = Except.error e := rfl

theorem lookupA_setA_self {α β : Type} [DecidableEq α] (k : α) (v : β)
    (l : List (α × β)) : lookupA k (setA k v l) = some v := by
  induction l with
  | nil => simp [setA, lookupA]
  | cons p rest ih =>
    obtain ⟨k', v'⟩ := p
    by_cases h : k' = k
    · simp [setA, lookupA, h]
    · simp [setA, lookupA, h, ih]

theorem lookupA_setA_ne {α β : Type} [DecidableEq α] {k k' : α} (v : β)
    (l : List (α × β)) (h : k' ≠ k) : lookupA k (setA k' v l) = lookupA k l := by
  induction l with
  | nil => simp [setA, lookupA, h]
  | cons p rest ih =>
    obtain ⟨k'', v''⟩ := p
    by_cases h2 : k'' = k'
    · simp [setA, lookupA, h2, h, Ne.symm h]
    · by_cases h3 : k'' = k <;> simp [setA, lookupA, h2, h3, Ne.symm h, ih]

theorem lookupA_delA_self {α β : Type} [DecidableEq α] (k : α)
    (l : List (α × β)) : lookupA k (delA k l) = none := by
  induction l with
  | nil => simp [delA, lookupA]
  | cons p rest ih =>
    obtain ⟨k', v'⟩ := p
    by_cases h : k' = k
    · simpa [delA, h] using ih
    · simpa [delA, lookupA, h] using ih

/-- A list of notes none of which bears the id `n`; every note does carry
an `id` attribute (so the scans raise nothing). -/
def NoId (n : String) (xs : List Value) : Prop :=
  ∀ x ∈ xs, ∃ v, subscript x "id" = Except.ok v ∧ isStr v n = false

theorem findNote_append_of_noId {n : String} {xs : List Value} (ys : List Value)
    (h : NoId n xs) : findNote n (xs ++ ys) = findNote n ys := by
  induction xs with
  | nil => simp
  | cons x rest ih =>
    obtain ⟨v, hv, hne⟩ := h x (by simp)
    have hrest : NoId n rest := fun y hy => h y (by simp [hy])
    simp [findNote, hv, hne, ih hrest]

theorem findNote_of_noId {n : String} {xs : List Value} (h : NoId n xs) :
    findNote n xs = Except.ok none := by
  have := @findNote_append_of_noId n xs [] h
  simpa [findNote] using this

theorem filterNotes_of_noId {n : String} {xs : List Value} (h : NoId n xs) :
    filterNotes n xs = Except.ok xs := by
  induction xs with
  | nil => simp [filterNotes]
  | cons x rest ih =>
    obtain ⟨v, hv, hne⟩ := h x (by simp)
    have hrest : NoId n rest := fun y hy => h y (by simp [hy])
    simp [filterNotes, hv, hne, ih hrest]

theorem isStr_str_self (s : String) : isStr (Value.str s) s = true := by
  simp [isStr]

theorem isStr_str_ne {t s : String} (h : t ≠ s) : isStr (Value.str t) s = false := by
  simp [isStr, h]

/-- Merging a Python dict into a JSON object never raises and folds
`setA` over the fields. -/
theorem foldlM_pySetItem_obj (fs : List (String × Value)) (g : List (String × Value)) :
    (fs.foldlM (fun acc kv => pySetItem acc kv.1 kv.2) (Value.obj g)) =
      Except.ok (Value.obj (fs.foldl (fun acc kv => setA kv.1 kv.2 acc) g)) := by
  induction fs generalizing g with
  | nil => rfl
  | cons kv rest ih =>
    have hstep : pySetItem (Value.obj g) kv.1 kv.2 =
        Except.ok (Value.obj (setA kv.1 kv.2 g)) := rfl
    rw [List.foldlM_cons, hstep, bind_ok, ih, List.foldl_cons]

/-- What a successful index scan guarantees: the index is in bounds
(relative to the start offset), the note is the element there, and it is
a JSON object. -/
theorem findNoteIdx_ok {nid : String} {xs : List Value} {k i : Nat} {note : Value}
    (h : findNoteIdx nid xs k = Except.ok (some (i, note))) :
    k ≤ i ∧ i - k < xs.length ∧ xs.getD (i - k) Value.null = note ∧
      ∃ g, note = Value.obj g := by
  induction xs generalizing k with
  | nil => simp [findNoteIdx] at h
  | cons x rest ih =>
    rw [findNoteIdx] at h
    cases hx : subscript x "id" with
    | error e => simp [hx] at h
    | ok v =>
      rw [hx] at h
      by_cases hm : isStr v nid = true
      · simp [hm] at h
        obtain ⟨hi, hnote⟩ := h
        refine ⟨by omega, by simp [← hi], ?_, ?_⟩
        · simp [← hi, hnote]
        · subst hnote
          cases x with
          | obj g => exact ⟨g, rfl⟩
          | null => simp [subscript] at hx
          | bool b => simp [subscript] at hx
          | num n => simp [subscript] at hx
          | str s => simp [subscript] at hx
          | arr l => simp [subscript] at hx
      · rw [Bool.not_eq_true] at hm
        simp [hm] at h
        obtain ⟨hk, hlen, hget, hobj⟩ := ih h
        refine ⟨by omega, by simp only [List.length_cons]; omega, ?_, hobj⟩
        have : i - k = (i - (k + 1)) + 1 := by omega
        simpa [this] using hget

/-- The content normalization of add-note (line 150 of the source), named
so statements can speak about it. -/
def contentListOf (c : Value) : Value :=
  match c with
  | Value.str s => Value.arr [Value.str s]
  | v => v

/-- The note object built by add-note (lines 152-160 of the source), with
the id value, parent id, author, timestamp and raw content as
parameters. -/
def mkNote (idv : Value) (p : String) (authorv : Value) (now : String) (c : Value) : Value :=
  Value.obj
    [("id", idv), ("patientId", Value.str p), ("author", authorv),
     ("createdAt", Value.str now), ("updatedAt", Value.str now),
     ("type", Value.str "Note"), ("content", contentListOf c)]

theorem subscript_mkNote_id (idv : Value) (p : String) (authorv : Value)
    (now : String) (c : Value) :
    subscript (mkNote idv p authorv now c) "id" = Except.ok idv := by
  simp [mkNote, subscript, lookupA]

/-- One successful add-note run: the note is appended to the existing
notes list, the updated row is returned with 201, and the row replaces
the old binding in the store. -/
theorem add_note_run (now fresh : String) (ev : Event) (st : Store)
    (ps : List (String × String)) (pq : String) (bf : List (String × Value))
    (it : Item) (xs : List Value) (authorv c idv : Value)
    (hps : ev.pathParameters = some ps)
    (hpq : lookupA "id" ps = some pq)
    (hb : ev.body = some (Value.obj bf))
    (hauth : lookupA "author" bf = some authorv)
    (hcont : lookupA "content" bf = some c)
    (hidv : (lookupA "id" bf).getD (Value.str ("Note#" ++ fresh)) = idv)
    (hit : lookupA (unquote pq, "Patient") st = some it)
    (hnotes : lookupA "notes" it = some (Value.arr xs)) :
    add_note_to_patient now fresh ev st =
      Except.ok
        (response_with_cors 201
          (Value.obj (setA "notes"
            (Value.arr (xs ++ [mkNote idv (unquote pq) authorv now c])) it)),
        setA (unquote pq, "Patient")
          (setA "notes"
            (Value.arr (xs ++ [mkNote idv (unquote pq) authorv now c])) it) st) := by
  simp only [add_note_to_patient, getPathParam, hps, hpq, getBody, hb, pyGetD,
    pyContains, hauth, hcont, hidv, subscript, bind_ok, Option.isSome_some,
    Bool.not_true, Bool.false_or]
  simp [update_item_append_notes, hit, hnotes, mkNote, contentListOf]

/-- A get-note run that finds its note answers 200 with it. -/
theorem get_note_found (ev : Event) (st : Store) (g : List (String × String))
    (pq nq : String) (it : Item) (notes : List Value) (v : Value)
    (hg : ev.pathParameters = some g)
    (hgid : lookupA "id" g = some pq)
    (hgn : lookupA "noteId" g = some nq)
    (hit : lookupA (unquote pq, "Patient") st = some it)
    (hnotes : lookupA "notes" it = some (Value.arr notes))
    (hfind : findNote (unquote nq) notes = Except.ok (some v)) :
    get_note ev st = Except.ok (response_with_cors 200 v, st) := by
  simp [get_note, getPathParam, hg, hgid, hgn, get_item, hit, hnotes,
    asNotesList, hfind]

/-- A get-note run whose scan finds nothing answers 404 "Note not
found". -/
theorem get_note_missing (ev : Event) (st : Store) (g : List (String × String))
    (pq nq : String) (it : Item) (notes : List Value)
    (hg : ev.pathParameters = some g)
    (hgid : lookupA "id" g = some pq)
    (hgn : lookupA "noteId" g = some nq)
    (hit : lookupA (unquote pq, "Patient") st = some it)
    (hnotes : lookupA "notes" it = some (Value.arr notes))
    (hfind : findNote (unquote nq) notes = Except.ok none) :
    get_note ev st =
      Except.ok (response_with_cors 404 (Value.str "Note not found"), st) := by
  simp [get_note, getPathParam, hg, hgid, hgn, get_item, hit, hnotes,
    asNotesList, hfind]

theorem findNote_cons_match {n : String} {x : Value} {v : Value} (xs : List Value)
    (hx : subscript x "id" = Except.ok v) (hm : isStr v n = true) :
    findNote n (x :: xs) = Except.ok (some x) := by
  simp [findNote, hx, hm]

theorem findNote_cons_skip {n : String} {x : Value} {v : Value} (xs : List Value)
    (hx : subscript x "id" = Except.ok v) (hm : isStr v n = false) :
    findNote n (x :: xs) = findNote n xs := by
  simp [findNote, hx, hm]

/-- A filter over notes that all carry an `id` attribute raises nothing. -/
theorem filterNotes_ok_of_ids {n : String} {xs : List Value}
    (h : ∀ x ∈ xs, ∃ v, subscript x "id" = Except.ok v) :
    ∃ ys, filterNotes n xs = Except.ok ys := by
  induction xs with
  | nil => exact ⟨[], rfl⟩
  | cons x rest ih =>
    obtain ⟨v, hv⟩ := h x (by simp)
    obtain ⟨ys, hys⟩ := ih (fun y hy => h y (by simp [hy]))
    by_cases hm : isStr v n = true
    · exact ⟨ys, by simp [filterNotes, hv, hys, hm]⟩
    · rw [Bool.not_eq_true] at hm
      exact ⟨x :: ys, by simp [filterNotes, hv, hys, hm]⟩

theorem getD_set_ne (xs : List Value) (i j : Nat) (v d : Value) (h : j ≠ i) :
    (xs.set i v).getD j d = xs.getD j d := by
  rw [List.getD_eq_getElem?_getD, List.getD_eq_getElem?_getD,
    List.getElem?_set_ne (Ne.symm h)]

theorem getD_set_self (xs : List Value) (i : Nat) (v d : Value) (h : i < xs.length) :
    (xs.set i v).getD i d = v := by
  rw [List.getD_eq_getElem?_getD, List.getElem?_set_self h]
  rfl

/-! ### Claims -/

/-- C2 (amended): a request whose resource or method field is absent gets
400 before any handler runs (the store is untouched); when both fields
are present, neither equal to the sentinel "UNKNOWN", and the pair
matches none of the nine routes, the answer is 405 "Method Not Allowed"
with the store untouched; when the pair is in the routing table, the
handler of that row — and only it — produces the result, inside the
top-level exception boundary. -/
theorem C2_routing (now fresh : String) (ev : Event) (st : Store) :
    ((ev.resource = none ∨ ev.httpMethod = none) →
      lambda_handler now fresh ev st =
        (response_with_cors 400 (Value.str "Invalid request. Resource or method not found."), st)) ∧
    (∀ r m, ev.resource = some r → ev.httpMethod = some m →
      r ≠ "UNKNOWN" → m ≠ "UNKNOWN" → (r, m) ∉ routePairs →
      lambda_handler now fresh ev st =
        (response_with_cors 405 (Value.str "Method Not Allowed"), st)) ∧
    (∀ r m h, ev.resource = some r → ev.httpMethod = some m →
      ((r, m), h) ∈ routeTable →
      lambda_handler now fresh ev st = catchTop st (h now fresh ev st)) := by
  refine ⟨?_, ?_, ?_⟩
  · rintro (h | h) <;> simp [lambda_handler, catchTop, h]
  · intro r m hr hm hru hmu hmem
    simp only [routePairs, List.mem_cons, List.not_mem_nil, or_false,
      Prod.mk.injEq, not_or] at hmem
    obtain ⟨h1, h2, h3, h4, h5, h6, h7, h8, h9⟩ := hmem
    simp [lambda_handler, catchTop, hr, hm, hru, hmu, h1, h2, h3, h4, h5, h6, h7, h8, h9]
  · intro r m h hr hm hmem
    simp only [routeTable, List.mem_cons, List.not_mem_nil, or_false,
      Prod.mk.injEq] at hmem
    rcases hmem with ⟨⟨rfl, rfl⟩, rfl⟩ | ⟨⟨rfl, rfl⟩, rfl⟩ | ⟨⟨rfl, rfl⟩, rfl⟩ |
      ⟨⟨rfl, rfl⟩, rfl⟩ | ⟨⟨rfl, rfl⟩, rfl⟩ | ⟨⟨rfl, rfl⟩, rfl⟩ | ⟨⟨rfl, rfl⟩, rfl⟩ |
      ⟨⟨rfl, rfl⟩, rfl⟩ | ⟨⟨rfl, rfl⟩, rfl⟩ <;>
    simp [lambda_handler, hr, hm]

/-- C2 counterexample: an event whose resource field is present and equal
to the string "UNKNOWN" has both fields present and matches no route, yet
the handler answers 400, not the 405 the claim requires. -/
theorem C2_counterexample :
    ("UNKNOWN", "GET") ∉ routePairs ∧
    (lambda_handler "t" "u" ⟨some "UNKNOWN", some "GET", none, none⟩ []).1.statusCode = 400 ∧
    (lambda_handler "t" "u" ⟨some "UNKNOWN", some "GET", none, none⟩ []).1 ≠
      response_with_cors 405 (Value.str "Method Not Allowed") := by
  refine ⟨by decide, rfl, ?_⟩
  intro hEq
  have h400 : (lambda_handler "t" "u" ⟨some "UNKNOWN", some "GET", none, none⟩ []).1.statusCode = 400 := rfl
  rw [hEq] at h400
  simp [response_with_cors] at h400

/-- C2 witness: the three branches at concrete inputs — a missing
resource gives 400, the unmatched pair ("/nope", "GET") gives 405, and
the matched pair ("/patients/\x7bid\x7d", "GET") runs `get_patient`. -/
theorem C2_witness :
    lambda_handler "t" "u" ⟨none, some "GET", none, none⟩ [] =
      (response_with_cors 400 (Value.str "Invalid request. Resource or method not found."), []) ∧
    lambda_handler "t" "u" ⟨some "/nope", some "GET", none, none⟩ [] =
      (response_with_cors 405 (Value.str "Method Not Allowed"), []) ∧
    lambda_handler "t" "u" ⟨some "/patients/{id}", some "GET", some [("id", "p1")], none⟩ [] =
      catchTop [] (get_patient ⟨some "/patients/{id}", some "GET", some [("id", "p1")], none⟩ []) := by
  refine ⟨(C2_routing "t" "u" _ []).1 (Or.inl rfl),
    (C2_routing "t" "u" _ []).2.1 "/nope" "GET" rfl rfl (by decide) (by decide) (by decide),
    (C2_routing "t" "u" _ []).2.2 "/patients/{id}" "GET"
      (fun _ _ ev st => get_patient ev st) rfl rfl ?_⟩
  exact List.Mem.tail _ (List.Mem.head _)

/-- C10: an inbound event whose resource field is literally the string
"UNKNOWN" (or whose httpMethod is) takes the sentinel path: 400 "Invalid
request. Resource or method not found." with the store untouched — the
same answer an event missing the field gets, never 405. -/
theorem C10_unknown_sentinel (now fresh : String) (ev : Event) (st : Store)
    (h : ev.resource = some "UNKNOWN" ∨ ev.httpMethod = some "UNKNOWN") :
    lambda_handler now fresh ev st =
      (response_with_cors 400 (Value.str "Invalid request. Resource or method not found."), st) ∧
    lambda_handler now fresh ev st =
      lambda_handler now fresh { ev with resource := none, httpMethod := none } st := by
  have habs : lambda_handler now fresh { ev with resource := none, httpMethod := none } st =
      (response_with_cors 400 (Value.str "Invalid request. Resource or method not found."), st) := by
    simp [lambda_handler, catchTop]
  rcases h with h | h
  · exact ⟨by simp [lambda_handler, catchTop, h], by rw [habs]; simp [lambda_handler, catchTop, h]⟩
  · exact ⟨by simp [lambda_handler, catchTop, h], by rw [habs]; simp [lambda_handler, catchTop, h]⟩

/-- C10 witness: the sentinel event with resource "UNKNOWN" and method
"GET" answers 400 with the no-route message. -/
theorem C10_witness :
    lambda_handler "t" "u" ⟨some "UNKNOWN", some "GET", none, none⟩ [] =
      (response_with_cors 400 (Value.str "Invalid request. Resource or method not found."), []) ∧
    lambda_handler "t" "u" ⟨some "UNKNOWN", some "GET", none, none⟩ [] =
      lambda_handler "t" "u" ⟨none, none, none, none⟩ [] :=
  C10_unknown_sentinel "t" "u" ⟨some "UNKNOWN", some "GET", none, none⟩ [] (Or.inl rfl)

/-- C1 counterexample: patient "p1" is created (201) and never receives a
note; the subsequent list-notes answers 200 with the empty list — not the
404 "No notes found for this patient" the claim asserts — because the
create operation stores `notes = []`. -/
theorem C1_counterexample :
    (do
      let c ← create_patient "2024-01-01T00:00:00"
        ⟨some "/patients", some "POST", none,
          some (Value.obj
            [("id", Value.str "p1"), ("name", Value.str "A"),
             ("email", Value.str "a@a.com"), ("dateOfBirth", Value.str "2000-01-01"),
             ("bloodType", Value.str "O+"), ("allergies", Value.arr []),
             ("medicalHistory", Value.arr []), ("emergencyContacts", Value.arr []),
             ("currentMedications", Value.arr [])])⟩ []
      let l ← get_all_notes_for_patient
        ⟨some "/patients/{id}/notes", some "GET", some [("id", "p1")], none⟩ c.2
      pure (c.1.statusCode, l.1.statusCode, l.1.body)) =
      Except.ok (201, 200, Value.arr []) := by
  rfl

/-- C1 (amended): a patient created by the create operation carries a
`notes` attribute equal to the empty list, so for such a patient that
never had a note added, list-notes returns 200 with the empty list; the
404 "No notes found for this patient" arises only when the patient row is
absent or lacks the `notes` attribute. -/
theorem C1_created_patient_lists_empty (now : String) (ev1 ev2 : Event) (st : Store)
    (bf : List (String × Value)) (pid : String)
    (namev emailv dobv btv alv mhv ecv cmv : Value)
    (ps2 : List (String × String)) (pq : String)
    (hb : ev1.body = some (Value.obj bf))
    (hid : lookupA "id" bf = some (Value.str pid))
    (hn : lookupA "name" bf = some namev)
    (he : lookupA "email" bf = some emailv)
    (hd : lookupA "dateOfBirth" bf = some dobv)
    (hbt : lookupA "bloodType" bf = some btv)
    (hal : lookupA "allergies" bf = some alv)
    (hmh : lookupA "medicalHistory" bf = some mhv)
    (hec : lookupA "emergencyContacts" bf = some ecv)
    (hcm : lookupA "currentMedications" bf = some cmv)
    (hps2 : ev2.pathParameters = some ps2)
    (hpq : lookupA "id" ps2 = some pq)
    (hunq : unquote pq = pid) :
    ∃ item st',
      create_patient now ev1 st =
        Except.ok (response_with_cors 201 (Value.obj item), st') ∧
      get_all_notes_for_patient ev2 st' =
        Except.ok (response_with_cors 200 (Value.arr []), st') := by
  refine ⟨[("id", Value.str pid), ("type", Value.str "Patient"), ("name", namev),
     ("email", emailv), ("dateOfBirth", dobv), ("bloodType", btv),
     ("allergies", alv), ("medicalHistory", mhv), ("emergencyContacts", ecv),
     ("currentMedications", cmv), ("createdAt", Value.str now),
     ("updatedAt", Value.str now), ("notes", Value.arr [])],
    setA (pid, "Patient")
      [("id", Value.str pid), ("type", Value.str "Patient"), ("name", namev),
       ("email", emailv), ("dateOfBirth", dobv), ("bloodType", btv),
       ("allergies", alv), ("medicalHistory", mhv), ("emergencyContacts", ecv),
       ("currentMedications", cmv), ("createdAt", Value.str now),
       ("updatedAt", Value.str now), ("notes", Value.arr [])] st, ?_, ?_⟩
  · simp [create_patient, getBody, hb, subscript, hid, hn, he, hd, hbt, hal,
      hmh, hec, hcm, put_item, lookupA]
  · simp [get_all_notes_for_patient, getPathParam, hps2, hpq, hunq, get_item,
      lookupA_setA_self, lookupA]

/-- C1 witness: the amended claim at the concrete creation payload of the
spec scenario, starting from the empty store. -/
theorem C1_witness :
    ∃ item st',
      create_patient "2024-01-01T00:00:00"
        ⟨some "/patients", some "POST", none,
          some (Value.obj
            [("id", Value.str "p1"), ("name", Value.str "A"),
             ("email", Value.str "a@a.com"), ("dateOfBirth", Value.str "2000-01-01"),
             ("bloodType", Value.str "O+"), ("allergies", Value.arr []),
             ("medicalHistory", Value.arr []), ("emergencyContacts", Value.arr []),
             ("currentMedications", Value.arr [])])⟩ [] =
        Except.ok (response_with_cors 201 (Value.obj item), st') ∧
      get_all_notes_for_patient
        ⟨some "/patients/{id}/notes", some "GET", some [("id", "p1")], none⟩ st' =
        Except.ok (response_with_cors 200 (Value.arr []), st') :=
  C1_created_patient_lists_empty "2024-01-01T00:00:00" _ _ []
    [("id", Value.str "p1"), ("name", Value.str "A"),
     ("email", Value.str "a@a.com"), ("dateOfBirth", Value.str "2000-01-01"),
     ("bloodType", Value.str "O+"), ("allergies", Value.arr []),
     ("medicalHistory", Value.arr []), ("emergencyContacts", Value.arr []),
     ("currentMedications", Value.arr [])]
    "p1" (Value.str "A") (Value.str "a@a.com") (Value.str "2000-01-01")
    (Value.str "O+") (Value.arr []) (Value.arr []) (Value.arr []) (Value.arr [])
    [("id", "p1")] "p1"
    rfl rfl rfl rfl rfl rfl rfl rfl rfl rfl rfl rfl rfl

/-- C5: an add-note request whose body lacks `author` or `content` gets
400 with the "Missing required fields" message, and the store — the
patient row and its notes included — is exactly the one the request
found. -/
theorem C5_missing_fields_no_write (now fresh : String) (ev : Event) (st : Store)
    (bf : List (String × Value)) (ps : List (String × String)) (pq : String)
    (hps : ev.pathParameters = some ps)
    (hpq : lookupA "id" ps = some pq)
    (hb : ev.body = some (Value.obj bf))
    (hmiss : lookupA "author" bf = none ∨ lookupA "content" bf = none) :
    add_note_to_patient now fresh ev st =
      Except.ok (response_with_cors 400
        (Value.str "Missing required fields: author and content are required."), st) := by
  rcases hmiss with h | h <;>
    simp [add_note_to_patient, getPathParam, hps, hpq, getBody, hb, pyGetD,
      pyContains, h]

/-- C5 witness: a body carrying only `content` answers 400 and leaves the
one-row store unchanged. -/
theorem C5_witness :
    add_note_to_patient "T1" "u1"
      ⟨some "/patients/{id}/notes", some "POST", some [("id", "p1")],
        some (Value.obj [("content", Value.str "stable")])⟩
      [(("p1", "Patient"), [("id", Value.str "p1")])] =
      Except.ok (response_with_cors 400
        (Value.str "Missing required fields: author and content are required."),
        [(("p1", "Patient"), [("id", Value.str "p1")])]) :=
  C5_missing_fields_no_write "T1" "u1" _ _
    [("content", Value.str "stable")] [("id", "p1")] "p1"
    rfl rfl rfl (Or.inl rfl)

/-- C7: deleting a patient is idempotent — both consecutive deletes
answer 204 with a null body, and a get of the same id afterwards answers
404 "Patient not found". -/
theorem C7_delete_patient_idempotent (ev : Event) (st : Store)
    (ps : List (String × String)) (pq : String)
    (hps : ev.pathParameters = some ps)
    (hpq : lookupA "id" ps = some pq) :
    ∃ st1 st2,
      delete_patient ev st = Except.ok (response_with_cors 204 Value.null, st1) ∧
      delete_patient ev st1 = Except.ok (response_with_cors 204 Value.null, st2) ∧
      get_patient ev st2 =
        Except.ok (response_with_cors 404 (Value.str "Patient not found"), st2) := by
  refine ⟨delete_item st (unquote pq, "Patient"),
    delete_item (delete_item st (unquote pq, "Patient")) (unquote pq, "Patient"),
    ?_, ?_, ?_⟩
  · simp [delete_patient, getPathParam, hps, hpq]
  · simp [delete_patient, getPathParam, hps, hpq]
  · simp [get_patient, getPathParam, hps, hpq, get_item, delete_item,
      lookupA_delA_self]

/-- C7 witness: the double delete of "p1" on a store holding that row. -/
theorem C7_witness :
    ∃ st1 st2,
      delete_patient ⟨some "/patients/{id}", some "DELETE", some [("id", "p1")], none⟩
          [(("p1", "Patient"), [("id", Value.str "p1")])] =
        Except.ok (response_with_cors 204 Value.null, st1) ∧
      delete_patient ⟨some "/patients/{id}", some "DELETE", some [("id", "p1")], none⟩ st1 =
        Except.ok (response_with_cors 204 Value.null, st2) ∧
      get_patient ⟨some "/patients/{id}", some "DELETE", some [("id", "p1")], none⟩ st2 =
        Except.ok (response_with_cors 404 (Value.str "Patient not found"), st2) :=
  C7_delete_patient_idempotent _ _ [("id", "p1")] "p1" rfl rfl

/-- C4: add-note stores the body's `content` normalized — a bare string
`s` becomes the one-element list `[s]`, a list passes through unchanged —
as the `content` attribute of the note appended to the patient's notes. -/
theorem C4_content_normalization (now fresh : String) (ev : Event) (st : Store)
    (bf : List (String × Value)) (ps : List (String × String)) (pq : String)
    (it : Item) (xs : List Value) (authorv c : Value)
    (hps : ev.pathParameters = some ps)
    (hpq : lookupA "id" ps = some pq)
    (hb : ev.body = some (Value.obj bf))
    (hauth : lookupA "author" bf = some authorv)
    (hcont : lookupA "content" bf = some c)
    (hit : get_item st (unquote pq, "Patient") = some it)
    (hnotes : lookupA "notes" it = some (Value.arr xs)) :
    ∃ item' st' note,
      add_note_to_patient now fresh ev st =
        Except.ok (response_with_cors 201 (Value.obj item'), st') ∧
      lookupA "notes" item' = some (Value.arr (xs ++ [note])) ∧
      (∀ s, c = Value.str s → subscript note "content" = Except.ok (Value.arr [Value.str s])) ∧
      (∀ l, c = Value.arr l → subscript note "content" = Except.ok (Value.arr l)) := by
  refine ⟨setA "notes"
      (Value.arr (xs ++
        [Value.obj
          [("id", (lookupA "id" bf).getD (Value.str ("Note#" ++ fresh))),
           ("patientId", Value.str (unquote pq)), ("author", authorv),
           ("createdAt", Value.str now), ("updatedAt", Value.str now),
           ("type", Value.str "Note"), ("content", contentListOf c)]])) it,
    setA (unquote pq, "Patient")
      (setA "notes"
        (Value.arr (xs ++
          [Value.obj
            [("id", (lookupA "id" bf).getD (Value.str ("Note#" ++ fresh))),
             ("patientId", Value.str (unquote pq)), ("author", authorv),
             ("createdAt", Value.str now), ("updatedAt", Value.str now),
             ("type", Value.str "Note"), ("content", contentListOf c)]])) it) st,
    Value.obj
      [("id", (lookupA "id" bf).getD (Value.str ("Note#" ++ fresh))),
       ("patientId", Value.str (unquote pq)), ("author", authorv),
       ("createdAt", Value.str now), ("updatedAt", Value.str now),
       ("type", Value.str "Note"), ("content", contentListOf c)],
    ?_, ?_, ?_, ?_⟩
  · have hit' : lookupA (unquote pq, "Patient") st = some it := hit
    simp only [add_note_to_patient, getPathParam, hps, hpq, getBody, hb, pyGetD,
      pyContains, hauth, hcont, subscript, bind_ok, Option.getD_some,
      Option.isSome_some, Bool.not_true, Bool.false_or]
    simp [update_item_append_notes, hit', hnotes, contentListOf]
  · exact lookupA_setA_self _ _ _
  · intro s hs
    subst hs
    simp [subscript, lookupA, contentListOf]
  · intro l hl
    subst hl
    simp [subscript, lookupA, contentListOf]

/-- C4 witness: a bare-string content "stable" stored as ["stable"], and
a list content ["a","b"] stored unchanged, on a one-patient store. -/
theorem C4_witness :
    (∃ item' st' note,
      add_note_to_patient "T1" "u1"
        ⟨some "/patients/{id}/notes", some "POST", some [("id", "p1")],
          some (Value.obj [("author", Value.str "Dr.Who"), ("content", Value.str "stable")])⟩
        [(("p1", "Patient"), [("id", Value.str "p1"), ("notes", Value.arr [])])] =
        Except.ok (response_with_cors 201 (Value.obj item'), st') ∧
      lookupA "notes" item' = some (Value.arr ([] ++ [note])) ∧
      (∀ s, Value.str "stable" = Value.str s →
        subscript note "content" = Except.ok (Value.arr [Value.str s])) ∧
      (∀ l, Value.str "stable" = Value.arr l →
        subscript note "content" = Except.ok (Value.arr l))) ∧
    (∃ item' st' note,
      add_note_to_patient "T1" "u1"
        ⟨some "/patients/{id}/notes", some "POST", some [("id", "p1")],
          some (Value.obj [("author", Value.str "Dr.Who"),
            ("content", Value.arr [Value.str "a", Value.str "b"])])⟩
        [(("p1", "Patient"), [("id", Value.str "p1"), ("notes", Value.arr [])])] =
        Except.ok (response_with_cors 201 (Value.obj item'), st') ∧
      lookupA "notes" item' = some (Value.arr ([] ++ [note])) ∧
      (∀ s, Value.arr [Value.str "a", Value.str "b"] = Value.str s →
        subscript note "content" = Except.ok (Value.arr [Value.str s])) ∧
      (∀ l, Value.arr [Value.str "a", Value.str "b"] = Value.arr l →
        subscript note "content" = Except.ok (Value.arr l))) :=
  ⟨C4_content_normalization "T1" "u1" _ _
      [("author", Value.str "Dr.Who"), ("content", Value.str "stable")]
      [("id", "p1")] "p1" [("id", Value.str "p1"), ("notes", Value.arr [])] []
      (Value.str "Dr.Who") (Value.str "stable") rfl rfl rfl rfl rfl rfl rfl,
    C4_content_normalization "T1" "u1" _ _
      [("author", Value.str "Dr.Who"), ("content", Value.arr [Value.str "a", Value.str "b"])]
      [("id", "p1")] "p1" [("id", Value.str "p1"), ("notes", Value.arr [])] []
      (Value.str "Dr.Who") (Value.arr [Value.str "a", Value.str "b"]) rfl rfl rfl rfl rfl rfl rfl⟩

/-- C3: delete-note answers 204 with a null body whether or not a note
with the given id exists in the row's notes list; when no note matches,
the written-back list is the old one, and a subsequent list-notes returns
it — same length, same elements. -/
theorem C3_delete_note_no_match (ev ev2 : Event) (st : Store)
    (ps : List (String × String)) (pq nq : String)
    (it : Item) (xs : List Value)
    (hps : ev.pathParameters = some ps)
    (hpq : lookupA "id" ps = some pq)
    (hnq : lookupA "noteId" ps = some nq)
    (hit : get_item st (unquote pq, "Patient") = some it)
    (hnotes : lookupA "notes" it = some (Value.arr xs))
    (hids : ∀ x ∈ xs, ∃ v, subscript x "id" = Except.ok v)
    (hps2 : ev2.pathParameters = some ps) :
    (∃ st', delete_note ev st = Except.ok (response_with_cors 204 Value.null, st')) ∧
    (NoId (unquote nq) xs →
      ∃ st',
        delete_note ev st = Except.ok (response_with_cors 204 Value.null, st') ∧
        get_all_notes_for_patient ev2 st' =
          Except.ok (response_with_cors 200 (Value.arr xs), st')) := by
  have hit' : lookupA (unquote pq, "Patient") st = some it := hit
  constructor
  · obtain ⟨ys, hys⟩ := @filterNotes_ok_of_ids (unquote nq) xs hids
    refine ⟨setA (unquote pq, "Patient") (setA "notes" (Value.arr ys) it) st, ?_⟩
    simp [delete_note, getPathParam, hps, hpq, hnq, get_item, hit',
      hnotes, asNotesList, hys, update_item_set]
  · intro hnoid
    refine ⟨setA (unquote pq, "Patient") (setA "notes" (Value.arr xs) it) st, ?_, ?_⟩
    · simp [delete_note, getPathParam, hps, hpq, hnq, get_item, hit', hnotes,
        asNotesList, filterNotes_of_noId hnoid, update_item_set]
    · simp [get_all_notes_for_patient, getPathParam, hps2, hpq, get_item,
        lookupA_setA_self]

/-- C3 witness: deleting note id "gone" from a patient whose single note
has id "kept" answers 204, and list-notes still returns that one note. -/
theorem C3_witness :
    (∃ st', delete_note
        ⟨some "/patients/{id}/notes/{noteId}", some "DELETE",
          some [("id", "p1"), ("noteId", "gone")], none⟩
        [(("p1", "Patient"),
          [("id", Value.str "p1"),
           ("notes", Value.arr [Value.obj [("id", Value.str "kept")]])])] =
      Except.ok (response_with_cors 204 Value.null, st')) ∧
    (NoId (unquote "gone") [Value.obj [("id", Value.str "kept")]] →
      ∃ st',
        delete_note
          ⟨some "/patients/{id}/notes/{noteId}", some "DELETE",
            some [("id", "p1"), ("noteId", "gone")], none⟩
          [(("p1", "Patient"),
            [("id", Value.str "p1"),
             ("notes", Value.arr [Value.obj [("id", Value.str "kept")]])])] =
          Except.ok (response_with_cors 204 Value.null, st') ∧
        get_all_notes_for_patient
          ⟨some "/patients/{id}/notes/{noteId}", some "DELETE",
            some [("id", "p1"), ("noteId", "gone")], none⟩ st' =
          Except.ok
            (response_with_cors 200 (Value.arr [Value.obj [("id", Value.str "kept")]]), st')) :=
  C3_delete_note_no_match _ _ _
    [("id", "p1"), ("noteId", "gone")] "p1" "gone"
    [("id", Value.str "p1"),
     ("notes", Value.arr [Value.obj [("id", Value.str "kept")]])]
    [Value.obj [("id", Value.str "kept")]]
    rfl rfl rfl rfl rfl
    (by
      intro x hx
      simp only [List.mem_singleton] at hx
      subst hx
      exact ⟨Value.str "kept", rfl⟩)
    rfl

/-- C8: updating an existing patient with the body setting email to
"x@y.com" and then reading it back yields a row whose email is
"x@y.com", whose createdAt is the original one, and whose updatedAt is
the update timestamp — strictly later than createdAt whenever the update
happened strictly after creation. -/
theorem C8_update_email_roundtrip (t : String) (ev ev2 : Event) (st : Store)
    (ps : List (String × String)) (pq t0 : String) (it : Item)
    (hps : ev.pathParameters = some ps)
    (hpq : lookupA "id" ps = some pq)
    (hb : ev.body = some (Value.obj [("email", Value.str "x@y.com")]))
    (hit : get_item st (unquote pq, "Patient") = some it)
    (hcr : lookupA "createdAt" it = some (Value.str t0))
    (hps2 : ev2.pathParameters = some ps)
    (hlt : t0 < t) :
    ∃ it' st',
      update_patient t ev st = Except.ok (response_with_cors 200 (Value.obj it'), st') ∧
      get_patient ev2 st' = Except.ok (response_with_cors 200 (Value.obj it'), st') ∧
      lookupA "email" it' = some (Value.str "x@y.com") ∧
      lookupA "updatedAt" it' = some (Value.str t) ∧
      lookupA "createdAt" it' = some (Value.str t0) ∧
      t0 < t := by
  have hit' : lookupA (unquote pq, "Patient") st = some it := hit
  refine ⟨setA "updatedAt" (Value.str t) (setA "email" (Value.str "x@y.com") it),
    setA (unquote pq, "Patient")
      (setA "updatedAt" (Value.str t) (setA "email" (Value.str "x@y.com") it)) st,
    ?_, ?_, ?_, ?_, ?_, hlt⟩
  · simp [update_patient, getPathParam, hps, hpq, getBody, hb, pyItems,
      update_item_set, hit']
  · simp [get_patient, getPathParam, hps2, hpq, get_item, lookupA_setA_self]
  · rw [lookupA_setA_ne _ _ (by decide), lookupA_setA_self]
  · rw [lookupA_setA_self]
  · rw [lookupA_setA_ne _ _ (by decide), lookupA_setA_ne _ _ (by decide), hcr]

/-- C8 witness: the round trip at a concrete one-row store, with the
update one day after creation. -/
theorem C8_witness :
    ∃ it' st',
      update_patient "2024-01-02T00:00:00"
        ⟨some "/patients/{id}", some "PUT", some [("id", "p1")],
          some (Value.obj [("email", Value.str "x@y.com")])⟩
        [(("p1", "Patient"),
          [("id", Value.str "p1"), ("type", Value.str "Patient"),
           ("createdAt", Value.str "2024-01-01T00:00:00")])] =
        Except.ok (response_with_cors 200 (Value.obj it'), st') ∧
      get_patient
        ⟨some "/patients/{id}", some "PUT", some [("id", "p1")],
          some (Value.obj [("email", Value.str "x@y.com")])⟩ st' =
        Except.ok (response_with_cors 200 (Value.obj it'), st') ∧
      lookupA "email" it' = some (Value.str "x@y.com") ∧
      lookupA "updatedAt" it' = some (Value.str "2024-01-02T00:00:00") ∧
      lookupA "createdAt" it' = some (Value.str "2024-01-01T00:00:00") ∧
      "2024-01-01T00:00:00" < "2024-01-02T00:00:00" :=
  C8_update_email_roundtrip "2024-01-02T00:00:00" _ _ _
    [("id", "p1")] "p1" "2024-01-01T00:00:00"
    [("id", Value.str "p1"), ("type", Value.str "Patient"),
     ("createdAt", Value.str "2024-01-01T00:00:00")]
    rfl rfl rfl rfl rfl rfl (by rw [String.lt_iff_toList_lt]; decide)

/-- C6: after adding two notes with distinct string ids to the same
patient (whose pre-existing notes carry neither id), get-note for each id
answers 200 with the note bearing that id, and get-note for a third id
carried by no note answers 404 "Note not found". -/
theorem C6_get_note_by_id (now1 now2 f1 f2 : String) (ev1 ev2 evg1 evg2 evg3 : Event)
    (st : Store) (ps g1 g2 g3 : List (String × String)) (pq nq1 nq2 nq3 : String)
    (it : Item) (xs : List Value) (bf1 bf2 : List (String × Value))
    (n1 n2 n3 : String) (a1 a2 c1 c2 : Value)
    (hps1 : ev1.pathParameters = some ps)
    (hps2 : ev2.pathParameters = some ps)
    (hpq : lookupA "id" ps = some pq)
    (hb1 : ev1.body = some (Value.obj bf1))
    (hb2 : ev2.body = some (Value.obj bf2))
    (hid1 : lookupA "id" bf1 = some (Value.str n1))
    (ha1 : lookupA "author" bf1 = some a1)
    (hc1 : lookupA "content" bf1 = some c1)
    (hid2 : lookupA "id" bf2 = some (Value.str n2))
    (ha2 : lookupA "author" bf2 = some a2)
    (hc2 : lookupA "content" bf2 = some c2)
    (hit : get_item st (unquote pq, "Patient") = some it)
    (hnotes : lookupA "notes" it = some (Value.arr xs))
    (hno1 : NoId n1 xs) (hno2 : NoId n2 xs) (hno3 : NoId n3 xs)
    (hne12 : n1 ≠ n2) (hne31 : n3 ≠ n1) (hne32 : n3 ≠ n2)
    (hg1 : evg1.pathParameters = some g1)
    (hgid1 : lookupA "id" g1 = some pq)
    (hgn1 : lookupA "noteId" g1 = some nq1)
    (hunq1 : unquote nq1 = n1)
    (hg2 : evg2.pathParameters = some g2)
    (hgid2 : lookupA "id" g2 = some pq)
    (hgn2 : lookupA "noteId" g2 = some nq2)
    (hunq2 : unquote nq2 = n2)
    (hg3 : evg3.pathParameters = some g3)
    (hgid3 : lookupA "id" g3 = some pq)
    (hgn3 : lookupA "noteId" g3 = some nq3)
    (hunq3 : unquote nq3 = n3) :
    ∃ st1 st2 r1 r2,
      add_note_to_patient now1 f1 ev1 st = Except.ok (r1, st1) ∧
      add_note_to_patient now2 f2 ev2 st1 = Except.ok (r2, st2) ∧
      (∃ v, get_note evg1 st2 = Except.ok (response_with_cors 200 v, st2) ∧
        subscript v "id" = Except.ok (Value.str n1)) ∧
      (∃ v, get_note evg2 st2 = Except.ok (response_with_cors 200 v, st2) ∧
        subscript v "id" = Except.ok (Value.str n2)) ∧
      get_note evg3 st2 =
        Except.ok (response_with_cors 404 (Value.str "Note not found"), st2) := by
  have hit' : lookupA (unquote pq, "Patient") st = some it := hit
  have hid1' : (lookupA "id" bf1).getD (Value.str ("Note#" ++ f1)) = Value.str n1 := by
    rw [hid1]; rfl
  have hid2' : (lookupA "id" bf2).getD (Value.str ("Note#" ++ f2)) = Value.str n2 := by
    rw [hid2]; rfl
  have hadd1 := add_note_run now1 f1 ev1 st ps pq bf1 it xs a1 c1 (Value.str n1)
    hps1 hpq hb1 ha1 hc1 hid1' hit' hnotes
  have hit1' := lookupA_setA_self (unquote pq, "Patient")
    (setA "notes" (Value.arr (xs ++ [mkNote (Value.str n1) (unquote pq) a1 now1 c1])) it) st
  have hnotes1 := lookupA_setA_self "notes"
    (Value.arr (xs ++ [mkNote (Value.str n1) (unquote pq) a1 now1 c1])) it
  have hadd2 := add_note_run now2 f2 ev2 _ ps pq bf2 _
    (xs ++ [mkNote (Value.str n1) (unquote pq) a1 now1 c1]) a2 c2 (Value.str n2)
    hps2 hpq hb2 ha2 hc2 hid2' hit1' hnotes1
  have hit2' := lookupA_setA_self (unquote pq, "Patient")
    (setA "notes"
      (Value.arr ((xs ++ [mkNote (Value.str n1) (unquote pq) a1 now1 c1]) ++
        [mkNote (Value.str n2) (unquote pq) a2 now2 c2]))
      (setA "notes" (Value.arr (xs ++ [mkNote (Value.str n1) (unquote pq) a1 now1 c1])) it))
    (setA (unquote pq, "Patient")
      (setA "notes" (Value.arr (xs ++ [mkNote (Value.str n1) (unquote pq) a1 now1 c1])) it) st)
  have hnotes2 := lookupA_setA_self "notes"
    (Value.arr ((xs ++ [mkNote (Value.str n1) (unquote pq) a1 now1 c1]) ++
      [mkNote (Value.str n2) (unquote pq) a2 now2 c2]))
    (setA "notes" (Value.arr (xs ++ [mkNote (Value.str n1) (unquote pq) a1 now1 c1])) it)
  have hsplit :
      (xs ++ [mkNote (Value.str n1) (unquote pq) a1 now1 c1]) ++
        [mkNote (Value.str n2) (unquote pq) a2 now2 c2] =
      xs ++ (mkNote (Value.str n1) (unquote pq) a1 now1 c1 ::
        [mkNote (Value.str n2) (unquote pq) a2 now2 c2]) := by
    rw [List.append_assoc]; rfl
  have hfind1 :
      findNote n1 ((xs ++ [mkNote (Value.str n1) (unquote pq) a1 now1 c1]) ++
        [mkNote (Value.str n2) (unquote pq) a2 now2 c2]) =
      Except.ok (some (mkNote (Value.str n1) (unquote pq) a1 now1 c1)) := by
    rw [hsplit, findNote_append_of_noId _ hno1]
    exact findNote_cons_match _ (subscript_mkNote_id _ _ _ _ _) (isStr_str_self n1)
  have hfind2 :
      findNote n2 ((xs ++ [mkNote (Value.str n1) (unquote pq) a1 now1 c1]) ++
        [mkNote (Value.str n2) (unquote pq) a2 now2 c2]) =
      Except.ok (some (mkNote (Value.str n2) (unquote pq) a2 now2 c2)) := by
    rw [hsplit, findNote_append_of_noId _ hno2,
      findNote_cons_skip _ (subscript_mkNote_id _ _ _ _ _) (isStr_str_ne hne12)]
    exact findNote_cons_match _ (subscript_mkNote_id _ _ _ _ _) (isStr_str_self n2)
  have hfind3 :
      findNote n3 ((xs ++ [mkNote (Value.str n1) (unquote pq) a1 now1 c1]) ++
        [mkNote (Value.str n2) (unquote pq) a2 now2 c2]) =
      Except.ok none := by
    rw [hsplit, findNote_append_of_noId _ hno3,
      findNote_cons_skip _ (subscript_mkNote_id _ _ _ _ _) (isStr_str_ne (Ne.symm hne31)),
      findNote_cons_skip _ (subscript_mkNote_id _ _ _ _ _) (isStr_str_ne (Ne.symm hne32))]
    rfl
  refine ⟨_, _, _, _, hadd1, hadd2, ?_, ?_, ?_⟩
  · exact ⟨mkNote (Value.str n1) (unquote pq) a1 now1 c1,
      get_note_found evg1 _ g1 pq nq1 _ _ _ hg1 hgid1 hgn1 hit2' hnotes2
        (hunq1 ▸ hfind1),
      subscript_mkNote_id _ _ _ _ _⟩
  · exact ⟨mkNote (Value.str n2) (unquote pq) a2 now2 c2,
      get_note_found evg2 _ g2 pq nq2 _ _ _ hg2 hgid2 hgn2 hit2' hnotes2
        (hunq2 ▸ hfind2),
      subscript_mkNote_id _ _ _ _ _⟩
  · exact get_note_missing evg3 _ g3 pq nq3 _ _ hg3 hgid3 hgn3 hit2' hnotes2
      (hunq3 ▸ hfind3)

/-- C6 witness: notes "na" and "nb" added to patient "p1" (initially
without notes), then fetched by id, plus a miss for "nc". -/
theorem C6_witness :
    ∃ st1 st2 r1 r2,
      add_note_to_patient "T1" "u1"
        ⟨some "/patients/{id}/notes", some "POST", some [("id", "p1")],
          some (Value.obj [("id", Value.str "na"), ("author", Value.str "A"),
            ("content", Value.str "x")])⟩
        [(("p1", "Patient"), [("id", Value.str "p1"), ("notes", Value.arr [])])] =
        Except.ok (r1, st1) ∧
      add_note_to_patient "T2" "u2"
        ⟨some "/patients/{id}/notes", some "POST", some [("id", "p1")],
          some (Value.obj [("id", Value.str "nb"), ("author", Value.str "B"),
            ("content", Value.str "y")])⟩ st1 =
        Except.ok (r2, st2) ∧
      (∃ v, get_note
          ⟨some "/patients/{id}/notes/{noteId}", some "GET",
            some [("id", "p1"), ("noteId", "na")], none⟩ st2 =
          Except.ok (response_with_cors 200 v, st2) ∧
        subscript v "id" = Except.ok (Value.str "na")) ∧
      (∃ v, get_note
          ⟨some "/patients/{id}/notes/{noteId}", some "GET",
            some [("id", "p1"), ("noteId", "nb")], none⟩ st2 =
          Except.ok (response_with_cors 200 v, st2) ∧
        subscript v "id" = Except.ok (Value.str "nb")) ∧
      get_note
        ⟨some "/patients/{id}/notes/{noteId}", some "GET",
          some [("id", "p1"), ("noteId", "nc")], none⟩ st2 =
        Except.ok (response_with_cors 404 (Value.str "Note not found"), st2) :=
  C6_get_note_by_id "T1" "T2" "u1" "u2" _ _ _ _ _
    [(("p1", "Patient"), [("id", Value.str "p1"), ("notes", Value.arr [])])]
    [("id", "p1")] [("id", "p1"), ("noteId", "na")] [("id", "p1"), ("noteId", "nb")]
    [("id", "p1"), ("noteId", "nc")] "p1" "na" "nb" "nc"
    [("id", Value.str "p1"), ("notes", Value.arr [])] []
    [("id", Value.str "na"), ("author", Value.str "A"), ("content", Value.str "x")]
    [("id", Value.str "nb"), ("author", Value.str "B"), ("content", Value.str "y")]
    "na" "nb" "nc" (Value.str "A") (Value.str "B") (Value.str "x") (Value.str "y")
    rfl rfl rfl rfl rfl rfl rfl rfl rfl rfl rfl rfl rfl
    (fun x hx => absurd hx (List.not_mem_nil x))
    (fun x hx => absurd hx (List.not_mem_nil x))
    (fun x hx => absurd hx (List.not_mem_nil x))
    (by decide) (by decide) (by decide)
    rfl rfl rfl rfl rfl rfl rfl rfl rfl rfl rfl rfl

/-- C9: when the row's notes list holds a note with the given id (located
at index `i` by the scan), update-note rewrites only that position —
every other note keeps its place and value — and the located note's
updatedAt is forced to the current time, even when the request body
itself supplies an updatedAt value. -/
theorem C9_update_note_frame (now : String) (ev : Event) (st : Store)
    (ps : List (String × String)) (pq nq : String) (bf : List (String × Value))
    (it : Item) (xs : List Value) (i : Nat) (note : Value)
    (hps : ev.pathParameters = some ps)
    (hpq : lookupA "id" ps = some pq)
    (hnq : lookupA "noteId" ps = some nq)
    (hb : ev.body = some (Value.obj bf))
    (hit : get_item st (unquote pq, "Patient") = some it)
    (hnotes : lookupA "notes" it = some (Value.arr xs))
    (hfind : findNoteIdx (unquote nq) xs 0 = Except.ok (some (i, note))) :
    ∃ it' st' ys g,
      update_note now ev st = Except.ok (response_with_cors 200 (Value.obj it'), st') ∧
      lookupA "notes" it' = some (Value.arr ys) ∧
      ys.length = xs.length ∧
      (∀ j, j ≠ i → ys.getD j Value.null = xs.getD j Value.null) ∧
      ys.getD i Value.null = Value.obj g ∧
      lookupA "updatedAt" g = some (Value.str now) := by
  have hit' : lookupA (unquote pq, "Patient") st = some it := hit
  obtain ⟨-, hlen, hget, g0, hobj⟩ := findNoteIdx_ok hfind
  simp only [Nat.sub_zero] at hlen hget
  subst hobj
  refine ⟨setA "notes"
      (Value.arr (xs.set i (Value.obj (setA "updatedAt" (Value.str now)
        (bf.foldl (fun acc kv => setA kv.1 kv.2 acc) g0))))) it,
    setA (unquote pq, "Patient")
      (setA "notes"
        (Value.arr (xs.set i (Value.obj (setA "updatedAt" (Value.str now)
          (bf.foldl (fun acc kv => setA kv.1 kv.2 acc) g0))))) it) st,
    xs.set i (Value.obj (setA "updatedAt" (Value.str now)
      (bf.foldl (fun acc kv => setA kv.1 kv.2 acc) g0))),
    setA "updatedAt" (Value.str now) (bf.foldl (fun acc kv => setA kv.1 kv.2 acc) g0),
    ?_, ?_, ?_, ?_, ?_, ?_⟩
  · have hupd : ∀ h : List (String × Value),
        pySetItem (Value.obj h) "updatedAt" (Value.str now) =
          Except.ok (Value.obj (setA "updatedAt" (Value.str now) h)) := fun _ => rfl
    simp [update_note, getPathParam, hps, hpq, hnq, getBody, hb, get_item, hit',
      hnotes, asNotesList, hfind, pyItems, foldlM_pySetItem_obj, hupd,
      update_item_set]
  · exact lookupA_setA_self _ _ _
  · simp
  · intro j hj
    exact getD_set_ne _ _ _ _ _ hj
  · exact getD_set_self _ _ _ _ hlen
  · exact lookupA_setA_self _ _ _

/-- C9 witness: updating note "na" (of two notes) with a body that
supplies both an author and its own updatedAt "junk": the stored note's
updatedAt is the server time "T9", the sibling note is untouched. -/
theorem C9_witness :
    ∃ it' st' ys g,
      update_note "T9"
        ⟨some "/patients/{id}/notes/{noteId}", some "PUT",
          some [("id", "p1"), ("noteId", "na")],
          some (Value.obj [("author", Value.str "Z"), ("updatedAt", Value.str "junk")])⟩
        [(("p1", "Patient"),
          [("id", Value.str "p1"),
           ("notes", Value.arr
             [Value.obj [("id", Value.str "na"), ("updatedAt", Value.str "old")],
              Value.obj [("id", Value.str "nb"), ("updatedAt", Value.str "old")]])])] =
        Except.ok (response_with_cors 200 (Value.obj it'), st') ∧
      lookupA "notes" it' = some (Value.arr ys) ∧
      ys.length =
        [Value.obj [("id", Value.str "na"), ("updatedAt", Value.str "old")],
         Value.obj [("id", Value.str "nb"), ("updatedAt", Value.str "old")]].length ∧
      (∀ j, j ≠ 0 → ys.getD j Value.null =
        [Value.obj [("id", Value.str "na"), ("updatedAt", Value.str "old")],
         Value.obj [("id", Value.str "nb"), ("updatedAt", Value.str "old")]].getD j Value.null) ∧
      ys.getD 0 Value.null = Value.obj g ∧
      lookupA "updatedAt" g = some (Value.str "T9") :=
  C9_update_note_frame "T9" _ _
    [("id", "p1"), ("noteId", "na")] "p1" "na"
    [("author", Value.str "Z"), ("updatedAt", Value.str "junk")]
    [("id", Value.str "p1"),
     ("notes", Value.arr
       [Value.obj [("id", Value.str "na"), ("updatedAt", Value.str "old")],
        Value.obj [("id", Value.str "nb"), ("updatedAt", Value.str "old")]])]
    [Value.obj [("id", Value.str "na"), ("updatedAt", Value.str "old")],
     Value.obj [("id", Value.str "nb"), ("updatedAt", Value.str "old")]]
    0 (Value.obj [("id", Value.str "na"), ("updatedAt", Value.str "old")])
    rfl rfl rfl rfl rfl rfl rfl

end Lemr
